import Mathlib

/-!
Shallow embedding of the macOS metrics bridge server (bun.ts).

Conventions of the embedding:
- JavaScript strings are Lean Strings; the character-level scanners below
  operate on List Char obtained via String.toList.  Case mapping is modeled
  for ASCII (A-Z / a-z), which covers the outputs of the probed commands.
- JavaScript numbers are modeled as ℚ.  The numeric strings matched by the
  regexes of the source ([0-9.]+) denote exact decimal values, so ℚ is a
  faithful carrier for them; strings that JavaScript parses to NaN (for
  example "1.2.3" or ".") are modeled as Option.none, mirroring the
  Number.isFinite guard of the source.
- The regular expressions of the source are simple enough to admit a direct
  deterministic scanner: each one is a case-insensitive literal followed by
  optional whitespace and one or two character-class captures, and no
  character class overlaps its successor, so no backtracking is needed.
  Leftmost matching (JavaScript String.match without the g flag) is modeled
  by trying every start position from the left.
- JSON.parse of the sensor-helper output is a runtime builtin, not code of
  this repository; it is modeled as an oracle parameter of type
  String → Option (List (String × ℚ)) returning the flat label-to-number
  mapping on success and none on parse failure.  Object.values of the parsed
  object is the list of second components.
-/

/-! ## Character utilities -/

/-- ASCII lower-casing of one character, as JavaScript toLowerCase acts on
the ASCII range. -/
def lowerChar (c : Char) : Char :=
  if 65 ≤ c.toNat ∧ c.toNat ≤ 90 then Char.ofNat (c.toNat + 32) else c

/-- ASCII upper-casing of one character, as JavaScript toUpperCase acts on
the ASCII range. -/
def upperChar (c : Char) : Char :=
  if 97 ≤ c.toNat ∧ c.toNat ≤ 122 then Char.ofNat (c.toNat - 32) else c

/-- Whitespace class of the regexes (\s) restricted to the characters that
occur in command output. -/
def isWsChar (c : Char) : Bool :=
  c = ' ' || c = '\t' || c = '\n' || c = '\r'

/-- The character class [0-9.] used by every numeric capture of the source. -/
def isDigitDotChar (c : Char) : Bool :=
  c.isDigit || c = '.'

/-- The character class [A-Za-z] used by the pressure-word captures. -/
def isAsciiLetter (c : Char) : Bool :=
  (97 ≤ c.toNat && c.toNat ≤ 122) || (65 ≤ c.toNat && c.toNat ≤ 90)

/-- Word characters for the regex word-boundary assertion (\b). -/
def isWordChar (c : Char) : Bool :=
  c.isDigit || isAsciiLetter c || c = '_'

/-- Splits a list into its longest prefix of characters satisfying p and the
remainder, modeling a greedy character-class repetition. -/
def takeRun (p : Char → Bool) : List Char → List Char × List Char
  | [] => ([], [])
  | c :: t =>
    if p c then
      let r := takeRun p t
      (c :: r.1, r.2)
    else ([], c :: t)

/-- Does the needle occur at the head of the haystack (case-sensitive)? -/
def startsWithChars : List Char → List Char → Bool
  | [], _ => true
  | _ :: _, [] => false
  | n :: ns, h :: hs => n = h && startsWithChars ns hs

/-- Substring containment, the model of JavaScript String.includes. -/
def containsChars (needle : List Char) : List Char → Bool
  | [] => startsWithChars needle []
  | h :: t => startsWithChars needle (h :: t) || containsChars needle t

/-- JavaScript hay.includes(pat) on Strings. -/
def includesStr (hay pat : String) : Bool :=
  containsChars pat.toList hay.toList

/-- JavaScript toLowerCase on a character list (ASCII range). -/
def jsLower (l : List Char) : List Char := l.map lowerChar

/-- Matches a literal case-insensitively at the head of the input, returning
the rest of the input on success.  Models the literal part of a /.../i
regex. -/
def matchLitCI : List Char → List Char → Option (List Char)
  | [], rest => some rest
  | _ :: _, [] => none
  | n :: ns, h :: hs => if lowerChar n = lowerChar h then matchLitCI ns hs else none

/-- Tries the position matcher f at every start position from the left and
returns the first success: the leftmost-match rule of String.match. -/
def scanLeftmost {α : Type} (f : List Char → Option α) : List Char → Option α
  | [] => f []
  | c :: t =>
    match f (c :: t) with
    | some r => some r
    | none => scanLeftmost f t

/-- Value of a decimal digit string (characters assumed to be digits). -/
def digitsToNat (l : List Char) : Nat :=
  l.foldl (fun n c => 10 * n + (c.toNat - 48)) 0

/-- Splits a character list at every dot. -/
def splitOnDot : List Char → List (List Char)
  | [] => [[]]
  | c :: t =>
    let r := splitOnDot t
    if c = '.' then [] :: r
    else
      match r with
      | [] => [[c]]
      | h :: hs => (c :: h) :: hs

/-- JavaScript Number(s) on a non-empty string drawn from [0-9.]: a plain
digit string or one with a single dot parses to its decimal value; a lone
dot or more than one dot gives NaN, modeled as none. -/
def jsNumOfDigitDot (l : List Char) : Option ℚ :=
  match splitOnDot l with
  | [a] => some (digitsToNat a : ℚ)
  | [a, b] =>
    if a = [] ∧ b = [] then none
    else some ((digitsToNat a : ℚ) + (digitsToNat b : ℚ) / ((10 : ℚ) ^ b.length))
  | _ => none

/-! ## Position matchers for the concrete regexes of the source -/

/-- Position matcher for /key\s*=\s*(capClass+)/i, returning the capture. -/
def matchKeyValAt (key : List Char) (capClass : Char → Bool) (l : List Char) :
    Option (List Char) :=
  match matchLitCI key l with
  | none => none
  | some r1 =>
    match (takeRun isWsChar r1).2 with
    | '=' :: r3 =>
      let cap := (takeRun capClass (takeRun isWsChar r3).2).1
      if cap = [] then none else some cap
    | _ => none

/-- Position matcher for /label\s*(capClass+)/i where the colon is part of
the literal label, returning the capture. -/
def matchLabelValAt (label : List Char) (capClass : Char → Bool) (l : List Char) :
    Option (List Char) :=
  match matchLitCI label l with
  | none => none
  | some r1 =>
    let cap := (takeRun capClass (takeRun isWsChar r1).2).1
    if cap = [] then none else some cap

/-- Position matcher for /label\s*([0-9.]+)\s*unit/i, returning the numeric
capture. -/
def matchLabelNumUnitAt (label unit : List Char) (l : List Char) : Option (List Char) :=
  match matchLitCI label l with
  | none => none
  | some r1 =>
    let r2 := (takeRun isWsChar r1).2
    let cap := (takeRun isDigitDotChar r2).1
    if cap = [] then none
    else
      let r4 := (takeRun isWsChar (takeRun isDigitDotChar r2).2).2
      match matchLitCI unit r4 with
      | none => none
      | some _ => some cap

/-- Position matcher for /used\s*=\s*([0-9.]+)([MG])\b/i, returning the
numeric capture and the unit character. -/
def matchSwapAt (l : List Char) : Option (List Char × Char) :=
  match matchLitCI ['u', 's', 'e', 'd'] l with
  | none => none
  | some r1 =>
    match (takeRun isWsChar r1).2 with
    | '=' :: r3 =>
      let r4 := (takeRun isWsChar r3).2
      let cap := (takeRun isDigitDotChar r4).1
      if cap = [] then none
      else
        match (takeRun isDigitDotChar r4).2 with
        | [] => none
        | u :: r6 =>
          if lowerChar u = 'm' ∨ lowerChar u = 'g' then
            match r6 with
            | [] => some (cap, u)
            | c :: _ => if isWordChar c then none else some (cap, u)
          else none
    | _ => none

/-- The matchNumber helper of the source specialised to key = value regexes:
leftmost match of /key\s*=\s*([0-9.]+)/i, with the Number.isFinite guard. -/
def matchNumKey (out : String) (key : String) : Option ℚ :=
  match scanLeftmost (matchKeyValAt key.toList isDigitDotChar) out.toList with
  | none => none
  | some cap => jsNumOfDigitDot cap

/-- The matchNumber helper of the source specialised to label/unit regexes:
leftmost match of /label\s*([0-9.]+)\s*unit/i, with the Number.isFinite
guard. -/
def matchNumLabelUnit (out : String) (label unit : String) : Option ℚ :=
  match scanLeftmost (matchLabelNumUnitAt label.toList unit.toList) out.toList with
  | none => none
  | some cap => jsNumOfDigitDot cap

/-! ## Data model (types of the source) -/

structure GPUStats where
  freq_mhz : Option ℚ
  active_pct : Option ℚ
  idle_pct : Option ℚ
  power_mw : Option ℚ
deriving DecidableEq

inductive Pressure where
  | green
  | yellow
  | red
  | unknown
deriving DecidableEq

structure MemoryStats where
  pressure : Pressure
  swap_gb : Option ℚ
deriving DecidableEq

inductive ThermalPressure where
  | nominal
  | moderate
  | heavy
  | critical
  | unknown
deriving DecidableEq

structure ThermalSource where
  pmset_ok : Bool
  powermetrics_smc_ok : Bool
  m4_temp_ok : Bool
deriving DecidableEq

structure ThermalStats where
  cpu_speed_limit_pct : Option ℚ
  gpu_speed_limit_pct : Option ℚ
  thermal_pressure : ThermalPressure
  cpu_temp_c : Option ℚ
  gpu_temp_c : Option ℚ
  soc_temp_c : Option ℚ
  source : ThermalSource
deriving DecidableEq

/-- Result triple of the die-temperature parser (cpu, gpu, soc). -/
structure TempTriple where
  cpu : Option ℚ
  gpu : Option ℚ
  soc : Option ℚ
deriving DecidableEq

/-- Result of parsePmsetTherm: the final cpuLim/gpuLim/pressure triple. -/
structure PmsetTherm where
  cpuLim : Option ℚ
  gpuLim : Option ℚ
  pressure : ThermalPressure
deriving DecidableEq

/-- Outcome of one bounded subprocess run as observed by the probes: the
exit-status flag and the two captured streams. -/
structure RunResult where
  ok : Bool
  stdout : String
  stderr : String

structure MemProbe where
  stats : MemoryStats
  raw : String
  ok : Bool

structure ThermProbe where
  stats : ThermalStats
  raw : String
  ok : Bool

/-! ## Parsers (bun.ts lines 111-189) -/

/-- parsePowermetricsGPU (bun.ts lines 118-125). -/
def parsePowermetricsGPU (out : String) : GPUStats :=
  { freq_mhz := matchNumLabelUnit out "GPU HW active frequency:" "MHz"
  , active_pct := matchNumLabelUnit out "GPU HW active residency:" "%"
  , idle_pct := matchNumLabelUnit out "GPU idle residency:" "%"
  , power_mw := matchNumLabelUnit out "GPU Power:" "mW" }

/-- parseMemoryPressure (bun.ts lines 127-134). -/
def parseMemoryPressure (out : String) : Pressure :=
  let lower := jsLower out.toList
  if containsChars "critical".toList lower || containsChars "red".toList lower then
    Pressure.red
  else if containsChars "warn".toList lower || containsChars "warning".toList lower ||
      containsChars "yellow".toList lower then
    Pressure.yellow
  else if containsChars "normal".toList lower || containsChars "green".toList lower ||
      containsChars "77%".toList lower then
    Pressure.green
  else if containsChars "memory free percentage".toList lower then
    Pressure.green
  else
    Pressure.unknown

/-- parseSwapUsage (bun.ts lines 136-143). -/
def parseSwapUsage (sysctlOut : String) : Option ℚ :=
  match scanLeftmost matchSwapAt sysctlOut.toList with
  | none => none
  | some (cap, u) =>
    match jsNumOfDigitDot cap with
    | none => none
    | some val => if upperChar u = 'G' then some val else some (val / 1024)

/-- The pressure-word extraction of parsePmsetTherm: the three alternative
regexes tried in order over the whole text. -/
def pressureWord (out : String) : Option (List Char) :=
  match scanLeftmost (matchKeyValAt "ThermalPressure".toList isAsciiLetter) out.toList with
  | some w => some w
  | none =>
    match scanLeftmost
        (matchLabelValAt "Thermal Pressure:".toList isAsciiLetter) out.toList with
    | some w => some w
    | none =>
      scanLeftmost (matchLabelValAt "Current pressure level:".toList isAsciiLetter) out.toList

/-- The substring classification of the captured pressure word. -/
def classifyWord (w : List Char) : ThermalPressure :=
  let v := jsLower w
  if containsChars "nominal".toList v then ThermalPressure.nominal
  else if containsChars "moderate".toList v then ThermalPressure.moderate
  else if containsChars "heavy".toList v then ThermalPressure.heavy
  else if containsChars "critical".toList v then ThermalPressure.critical
  else ThermalPressure.unknown

/-- parsePmsetTherm (bun.ts lines 145-172), including the defaulting rules:
cpuLim falls back to 100 when its pattern is absent but the text states that
no CPU power status has been recorded, gpuLim falls back to 100 whenever its
pattern is absent, and the pressure falls back to nominal when it is still
unknown but the text contains the no-thermal-warning sentence or the literal
"Nominal". -/
def parsePmsetTherm (out : String) : PmsetTherm :=
  let cpuLim := matchNumKey out "CPU_Speed_Limit"
  let gpuLim := matchNumKey out "GPU_Speed_Limit"
  let p0 : ThermalPressure :=
    match pressureWord out with
    | some w => classifyWord w
    | none => ThermalPressure.unknown
  let pressure :=
    if p0 = ThermalPressure.unknown ∧
        (includesStr out "No thermal warning level has been recorded" = true ∨
         includesStr out "Nominal" = true) then
      ThermalPressure.nominal
    else p0
  { cpuLim :=
      match cpuLim with
      | some v => some v
      | none =>
        if includesStr out "No CPU power status has been recorded" = true then some 100
        else none
  , gpuLim :=
      match gpuLim with
      | some v => some v
      | none => some 100
  , pressure := pressure }

/-- parsePowermetricsSMCTemps (bun.ts lines 174-189). -/
def parsePowermetricsSMCTemps (out : String) : TempTriple :=
  { cpu :=
      match matchNumLabelUnit out "CPU die temperature:" "C" with
      | some v => some v
      | none => matchNumLabelUnit out "CPU temperature:" "C"
  , gpu :=
      match matchNumLabelUnit out "GPU die temperature:" "C" with
      | some v => some v
      | none => matchNumLabelUnit out "GPU temperature:" "C"
  , soc :=
      match matchNumLabelUnit out "SoC die temperature:" "C" with
      | some v => some v
      | none =>
        match matchNumLabelUnit out "SOC die temperature:" "C" with
        | some v => some v
        | none => matchNumLabelUnit out "PMU die temperature:" "C" }

/-! ## Probes and aggregation (bun.ts lines 199-311) -/

/-- Math.max over a non-empty argument list, as spread onto Math.max. -/
def jsMaxList (x : ℚ) (xs : List ℚ) : ℚ := xs.foldl max x

/-- The sensor-helper fallback block of getThermals (bun.ts lines 233-247):
when the primary parse t is all-null and the helper exited successfully, the
helper stdout is parsed; on success with a non-empty mapping the maximum
value is assigned to all three temperatures, otherwise t is left unchanged. -/
def applyM4Fallback (t : TempTriple) (m4ok : Bool)
    (parsed : Option (List (String × ℚ))) : TempTriple :=
  if t.cpu = none ∧ t.gpu = none ∧ t.soc = none ∧ m4ok = true then
    match parsed with
    | none => t
    | some data =>
      match data.map Prod.snd with
      | [] => t
      | v :: vs =>
        let maxTemp := jsMaxList v vs
        { cpu := some maxTemp, gpu := some maxTemp, soc := some maxTemp }
  else t

/-- getMemory (bun.ts lines 199-216) as a function of the two sub-command
outcomes. -/
def getMemory (mp swap : RunResult) : MemProbe :=
  let mpRaw := mp.stdout ++ mp.stderr
  let swapRaw := swap.stdout ++ swap.stderr
  { stats :=
      { pressure := parseMemoryPressure mpRaw
      , swap_gb := parseSwapUsage swapRaw }
  , raw := "=== memory_pressure -Q ===\n" ++ mpRaw ++
      "\n\n=== sysctl vm.swapusage ===\n" ++ swapRaw ++ "\n"
  , ok := mp.ok && swap.ok }

/-- getThermals (bun.ts lines 218-271) as a function of the three
sub-command outcomes and the JSON-parse oracle for the helper output. -/
def getThermals (pmset smc m4 : RunResult)
    (jsonParse : String → Option (List (String × ℚ))) : ThermProbe :=
  let pmsetRaw := pmset.stdout ++ pmset.stderr
  let smcRaw := smc.stdout ++ smc.stderr
  let m4Raw := m4.stdout ++ m4.stderr
  let p := parsePmsetTherm (pmsetRaw ++ "\n" ++ smcRaw)
  let t := applyM4Fallback (parsePowermetricsSMCTemps smcRaw) m4.ok (jsonParse m4Raw)
  { stats :=
      { cpu_speed_limit_pct := p.cpuLim
      , gpu_speed_limit_pct := p.gpuLim
      , thermal_pressure := p.pressure
      , cpu_temp_c := t.cpu
      , gpu_temp_c := t.gpu
      , soc_temp_c := t.soc
      , source :=
          { pmset_ok := pmset.ok
          , powermetrics_smc_ok := smc.ok
          , m4_temp_ok := m4.ok } }
  , raw := "=== pmset -g therm ===\n" ++ pmsetRaw ++
      "\n\n=== powermetrics (smc) ===\n" ++ smcRaw ++
      "\n\n=== M4Temp (HID) ===\n" ++ m4Raw ++ "\n"
  , ok := pmset.ok || smc.ok || m4.ok }

/-- The derived gpu_pinned flag of the /metrics handler (bun.ts lines
289-291): active and idle both present, active at least 95 and idle at most
2. -/
def gpuPinned (g : GPUStats) : Bool :=
  match g.active_pct, g.idle_pct with
  | some active, some idle => decide (95 ≤ active) && decide (idle ≤ 2)
  | _, _ => false

def warningGPU : String := "GPU stats missing: powermetrics likely needs sudo."

def warningPmset : String := "Thermal stats missing: pmset -g therm failed."

def warningTempSensors : String :=
  "Temperature sensors (CPU/GPU) are not available via standard powermetrics on M4 Max / macOS 15+."

/-- The warnings list of the /metrics handler (bun.ts lines 300-310): three
independent conditional entries concatenated in a fixed order. -/
def buildWarnings (g : GPUStats) (src : ThermalSource) : List String :=
  (if g.freq_mhz = none ∧ g.power_mw = none then [warningGPU] else []) ++
  (if src.pmset_ok = false then [warningPmset] else []) ++
  (if src.powermetrics_smc_ok = false ∧ src.m4_temp_ok = false then [warningTempSensors]
   else [])

/-! ## Helper lemmas -/

/-- If the position matcher fails on every suffix of the input, the leftmost
scan finds nothing. -/
theorem scanLeftmost_eq_none {α : Type} (f : List Char → Option α) (l : List Char)
    (h : (l.tails.all fun t => (f t).isNone) = true) : scanLeftmost f l = none := by
  induction l with
  | nil =>
    simp only [List.tails, List.all_cons, List.all_nil, Bool.and_true] at h
    simp only [scanLeftmost]
    exact Option.isNone_iff_eq_none.mp h
  | cons c t ih =>
    rw [List.tails_cons, List.all_cons, Bool.and_eq_true] at h
    obtain ⟨h1, h2⟩ := h
    simp only [scanLeftmost, Option.isNone_iff_eq_none.mp h1]
    exact ih h2

/-- The fold modeling Math.max returns an element of its argument list. -/
theorem jsMaxList_mem (xs : List ℚ) : ∀ x : ℚ, jsMaxList x xs ∈ x :: xs := by
  induction xs with
  | nil => intro x; simp [jsMaxList]
  | cons a l ih =>
    intro x
    have hstep : jsMaxList x (a :: l) = jsMaxList (max x a) l := rfl
    rw [hstep]
    rcases List.mem_cons.mp (ih (max x a)) with h1 | h1
    · rcases max_choice x a with hm | hm
      · rw [h1, hm]; exact List.mem_cons_self x (a :: l)
      · rw [h1, hm]; exact List.mem_cons.mpr (Or.inr (List.mem_cons_self a l))
    · exact List.mem_cons.mpr (Or.inr (List.mem_cons.mpr (Or.inr h1)))

/-- The fold modeling Math.max bounds every element of its argument list. -/
theorem jsMaxList_le (xs : List ℚ) : ∀ x : ℚ, ∀ y ∈ x :: xs, y ≤ jsMaxList x xs := by
  induction xs with
  | nil =>
    intro x y hy
    rw [List.mem_singleton] at hy
    rw [hy]
    exact le_of_eq rfl
  | cons a l ih =>
    intro x y hy
    have hstep : jsMaxList x (a :: l) = jsMaxList (max x a) l := rfl
    rw [hstep]
    have hself : max x a ≤ jsMaxList (max x a) l :=
      ih (max x a) (max x a) (List.mem_cons_self _ _)
    rcases List.mem_cons.mp hy with h1 | h1
    · rw [h1]; exact le_trans (le_max_left x a) hself
    · rcases List.mem_cons.mp h1 with h2 | h2
      · rw [h2]; exact le_trans (le_max_right x a) hself
      · exact ih (max x a) y (List.mem_cons.mpr (Or.inr h2))

/-- The final gpuLim of parsePmsetTherm is always populated: either the
matched value or the default 100. -/
theorem parsePmsetTherm_gpuLim_total (out : String) :
    ∃ v : ℚ, (parsePmsetTherm out).gpuLim = some v := by
  simp only [parsePmsetTherm]
  cases h : matchNumKey out "GPU_Speed_Limit" with
  | none => exact ⟨100, by simp [h]⟩
  | some v => exact ⟨v, by simp [h]⟩

/-! ## Claims -/

/-- A powermetrics output whose reported active residency exceeds 100
percent; the numeric capture [0-9.]+ of the source places no upper bound on
the matched value. -/
def c1Input : String := "GPU HW active residency: 150 %\nGPU idle residency: 1 %"

/-- Claim C1, counterexample: on this parser-produced GPUStats the derived
gpu_pinned flag is true although active_pct = 150 does not lie in [95,100],
so gpu_pinned is not equivalent to active_pct ∈ [95,100] ∧ idle_pct ∈ [0,2]
as the claim states; the source only checks active_pct ≥ 95 and
idle_pct ≤ 2. -/
theorem C1_counterexample :
    gpuPinned (parsePowermetricsGPU c1Input) = true ∧
    (parsePowermetricsGPU c1Input).active_pct = some 150 ∧
    (parsePowermetricsGPU c1Input).idle_pct = some 1 ∧
    ¬((150 : ℚ) ≤ 100) := by
  refine ⟨by decide, by decide, by decide, by decide⟩

/-- Claim C1, amended: the derived gpu_pinned flag is true iff active_pct
and idle_pct are both non-null, active_pct ≥ 95 and idle_pct ≤ 2 (no upper
bound on active_pct is checked, and no lower bound on idle_pct); it is false
whenever either residency value is null. -/
theorem C1_gpu_pinned (g : GPUStats) :
    gpuPinned g = true ↔
      ∃ active idle : ℚ, g.active_pct = some active ∧ g.idle_pct = some idle ∧
        95 ≤ active ∧ idle ≤ 2 := by
  obtain ⟨f, oa, oi, p⟩ := g
  cases oa <;> cases oi <;> simp [gpuPinned]

/-- Claim C1, witness instantiating the amended equivalence. -/
theorem C1_gpu_pinned_wit : gpuPinned ⟨none, some 96, some 1, none⟩ = true :=
  (C1_gpu_pinned ⟨none, some 96, some 1, none⟩).mpr
    ⟨96, 1, rfl, rfl, by norm_num, by norm_num⟩

/-- Claim C2: the memory-pressure classifier lower-cases the text and
returns the first matching class in the fixed priority order red (critical
or red), yellow (warn, warning or yellow), green (normal, green or the
nominal-percentage marker 77%), green (the free-percentage header), else
unknown; in particular a text containing CRITICAL in any case yields red
even when normal co-occurs. -/
theorem C2_pressure_priority (out : String) :
    ((containsChars "critical".toList (jsLower out.toList) = true ∨
      containsChars "red".toList (jsLower out.toList) = true) →
        parseMemoryPressure out = Pressure.red) ∧
    (containsChars "critical".toList (jsLower out.toList) = false →
     containsChars "red".toList (jsLower out.toList) = false →
     (containsChars "warn".toList (jsLower out.toList) = true ∨
      containsChars "warning".toList (jsLower out.toList) = true ∨
      containsChars "yellow".toList (jsLower out.toList) = true) →
        parseMemoryPressure out = Pressure.yellow) ∧
    (containsChars "critical".toList (jsLower out.toList) = false →
     containsChars "red".toList (jsLower out.toList) = false →
     containsChars "warn".toList (jsLower out.toList) = false →
     containsChars "warning".toList (jsLower out.toList) = false →
     containsChars "yellow".toList (jsLower out.toList) = false →
     (containsChars "normal".toList (jsLower out.toList) = true ∨
      containsChars "green".toList (jsLower out.toList) = true ∨
      containsChars "77%".toList (jsLower out.toList) = true) →
        parseMemoryPressure out = Pressure.green) ∧
    (containsChars "critical".toList (jsLower out.toList) = false →
     containsChars "red".toList (jsLower out.toList) = false →
     containsChars "warn".toList (jsLower out.toList) = false →
     containsChars "warning".toList (jsLower out.toList) = false →
     containsChars "yellow".toList (jsLower out.toList) = false →
     containsChars "normal".toList (jsLower out.toList) = false →
     containsChars "green".toList (jsLower out.toList) = false →
     containsChars "77%".toList (jsLower out.toList) = false →
     containsChars "memory free percentage".toList (jsLower out.toList) = true →
        parseMemoryPressure out = Pressure.green) ∧
    (containsChars "critical".toList (jsLower out.toList) = false →
     containsChars "red".toList (jsLower out.toList) = false →
     containsChars "warn".toList (jsLower out.toList) = false →
     containsChars "warning".toList (jsLower out.toList) = false →
     containsChars "yellow".toList (jsLower out.toList) = false →
     containsChars "normal".toList (jsLower out.toList) = false →
     containsChars "green".toList (jsLower out.toList) = false →
     containsChars "77%".toList (jsLower out.toList) = false →
     containsChars "memory free percentage".toList (jsLower out.toList) = false →
        parseMemoryPressure out = Pressure.unknown) ∧
    parseMemoryPressure "CRITICAL (state was normal)" = Pressure.red := by
  refine ⟨?_, ?_, ?_, ?_, ?_, by decide⟩
  · intro h
    simp only [parseMemoryPressure]
    rcases h with h | h <;> rw [h] <;> simp
  · intro h1 h2 h3
    simp only [parseMemoryPressure]
    rw [h1, h2]
    rcases h3 with h | h | h <;> rw [h] <;> simp
  · intro h1 h2 h3 h4 h5 h6
    simp only [parseMemoryPressure]
    rw [h1, h2, h3, h4, h5]
    rcases h6 with h | h | h <;> rw [h] <;> simp
  · intro h1 h2 h3 h4 h5 h6 h7 h8 h9
    simp only [parseMemoryPressure]
    rw [h1, h2, h3, h4, h5, h6, h7, h8, h9]
    simp
  · intro h1 h2 h3 h4 h5 h6 h7 h8 h9
    simp only [parseMemoryPressure]
    rw [h1, h2, h3, h4, h5, h6, h7, h8, h9]
    simp

/-- Claim C2, witness discharging the yellow branch on the text "warn". -/
theorem C2_pressure_priority_wit : parseMemoryPressure "warn" = Pressure.yellow :=
  (C2_pressure_priority "warn").2.1 (by decide) (by decide) (Or.inl (by decide))

/-- Claim C3: the sensor-helper fallback is applied iff the primary
die-temperature parse is all-null and the helper exited successfully; when
it applies and the helper stdout parses as a non-empty mapping, the maximum
value over all entries is assigned identically to cpu, gpu and soc; on
parse failure the temperatures stay null.  The last conjunct runs the whole
thermal probe on the claim's example mapping of a to 10 and b to 22.5 and
obtains 22.5 (= 45/2) for all three fields. -/
theorem C3_sensor_fallback :
    (∀ (t : TempTriple) (m4ok : Bool) (parsed : Option (List (String × ℚ))),
      ¬(t.cpu = none ∧ t.gpu = none ∧ t.soc = none ∧ m4ok = true) →
      applyM4Fallback t m4ok parsed = t) ∧
    (∀ m4ok : Bool, applyM4Fallback ⟨none, none, none⟩ m4ok none = ⟨none, none, none⟩) ∧
    (∀ (data : List (String × ℚ)) (v : ℚ) (vs : List ℚ),
      data.map Prod.snd = v :: vs →
      ∃ m : ℚ, applyM4Fallback ⟨none, none, none⟩ true (some data) =
          ⟨some m, some m, some m⟩ ∧
        m ∈ v :: vs ∧ ∀ y ∈ v :: vs, y ≤ m) ∧
    ((getThermals ⟨false, "", ""⟩ ⟨false, "", ""⟩ ⟨true, "", ""⟩
        (fun _ => some [("a", 10), ("b", 45 / 2)])).stats.cpu_temp_c = some (45 / 2) ∧
     (getThermals ⟨false, "", ""⟩ ⟨false, "", ""⟩ ⟨true, "", ""⟩
        (fun _ => some [("a", 10), ("b", 45 / 2)])).stats.gpu_temp_c = some (45 / 2) ∧
     (getThermals ⟨false, "", ""⟩ ⟨false, "", ""⟩ ⟨true, "", ""⟩
        (fun _ => some [("a", 10), ("b", 45 / 2)])).stats.soc_temp_c = some (45 / 2)) := by
  have hmax : max (10 : ℚ) (45 / 2) = 45 / 2 := max_eq_right (by norm_num)
  refine ⟨?_, ?_, ?_, ?_, ?_, ?_⟩
  · intro t m4ok parsed h
    simp only [applyM4Fallback]
    rw [if_neg h]
  · intro m4ok
    cases m4ok <;> rfl
  · intro data v vs h
    refine ⟨jsMaxList v vs, ?_, jsMaxList_mem vs v, jsMaxList_le vs v⟩
    have e : applyM4Fallback ⟨none, none, none⟩ true (some data) =
        (match data.map Prod.snd with
         | [] => (⟨none, none, none⟩ : TempTriple)
         | v :: vs =>
           ⟨some (jsMaxList v vs), some (jsMaxList v vs), some (jsMaxList v vs)⟩) := rfl
    rw [e, h]
  · have h : (getThermals ⟨false, "", ""⟩ ⟨false, "", ""⟩ ⟨true, "", ""⟩
        (fun _ => some [("a", 10), ("b", 45 / 2)])).stats.cpu_temp_c =
        some (max (10 : ℚ) (45 / 2)) := rfl
    rw [h, hmax]
  · have h : (getThermals ⟨false, "", ""⟩ ⟨false, "", ""⟩ ⟨true, "", ""⟩
        (fun _ => some [("a", 10), ("b", 45 / 2)])).stats.gpu_temp_c =
        some (max (10 : ℚ) (45 / 2)) := rfl
    rw [h, hmax]
  · have h : (getThermals ⟨false, "", ""⟩ ⟨false, "", ""⟩ ⟨true, "", ""⟩
        (fun _ => some [("a", 10), ("b", 45 / 2)])).stats.soc_temp_c =
        some (max (10 : ℚ) (45 / 2)) := rfl
    rw [h, hmax]

/-- Claim C3, witness: the no-fallback branch discharged at a triple whose
cpu temperature is already present. -/
theorem C3_sensor_fallback_wit :
    applyM4Fallback ⟨some 1, none, none⟩ true none = ⟨some 1, none, none⟩ :=
  C3_sensor_fallback.1 ⟨some 1, none, none⟩ true none (by simp)

/-- Claim C4: the swap parser returns the value of the leftmost
used = value unit token normalized to gigabytes (unchanged for unit G,
divided by 1024 for unit M) and null when no token matches anywhere in the
text; the two example conjuncts give 2.5 for "used = 2.50G" and 0.5 for
"used = 512M". -/
theorem C4_swap (s : String) :
    parseSwapUsage "used = 2.50G" = some (5 / 2) ∧
    parseSwapUsage "used = 512M" = some (1 / 2) ∧
    ((s.toList.tails.all fun t => (matchSwapAt t).isNone) = true →
      parseSwapUsage s = none) ∧
    (∀ (cap : List Char) (u : Char) (v : ℚ),
      scanLeftmost matchSwapAt s.toList = some (cap, u) →
      jsNumOfDigitDot cap = some v →
      parseSwapUsage s = some (if upperChar u = 'G' then v else v / 1024)) := by
  refine ⟨?_, ?_, ?_, ?_⟩
  · have h : parseSwapUsage "used = 2.50G" =
        some ((digitsToNat ['2'] : ℚ) + (digitsToNat ['5', '0'] : ℚ) / ((10 : ℚ) ^ 2)) := rfl
    have d1 : digitsToNat ['2'] = 2 := by decide
    have d2 : digitsToNat ['5', '0'] = 50 := by decide
    rw [h, d1, d2]
    norm_num
  · have h : parseSwapUsage "used = 512M" =
        some ((digitsToNat ['5', '1', '2'] : ℚ) / 1024) := rfl
    have d1 : digitsToNat ['5', '1', '2'] = 512 := by decide
    rw [h, d1]
    norm_num
  · intro h
    have h2 : scanLeftmost matchSwapAt s.toList = none := scanLeftmost_eq_none _ _ h
    simp only [parseSwapUsage, h2]
  · intro cap u v h1 h2
    simp only [parseSwapUsage, h1, h2]
    split <;> rfl

/-- Claim C4, witness: the token-present branch discharged on the text
"used = 3G". -/
theorem C4_swap_wit :
    parseSwapUsage "used = 3G" = some (if upperChar 'G' = 'G' then (3 : ℚ) else 3 / 1024) :=
  (C4_swap "used = 3G").2.2.2 ['3'] 'G' 3 (by decide) (by decide)

/-- Claim C5: the warnings list is always a sublist of the three advisory
texts in their fixed order (GPU privilege, power-state source, temperature
sensors), contains no duplicate, and is empty iff GPU frequency or power is
non-null, the power-state command succeeded, and at least one temperature
source succeeded. -/
theorem C5_warnings (g : GPUStats) (src : ThermalSource) :
    List.Sublist (buildWarnings g src) [warningGPU, warningPmset, warningTempSensors] ∧
    (buildWarnings g src).Nodup ∧
    (buildWarnings g src = [] ↔
      (g.freq_mhz ≠ none ∨ g.power_mw ≠ none) ∧ src.pmset_ok = true ∧
      (src.powermetrics_smc_ok = true ∨ src.m4_temp_ok = true)) := by
  refine ⟨?_, ?_, ?_⟩
  · simp only [buildWarnings]
    split_ifs <;> decide
  · simp only [buildWarnings]
    split_ifs <;> decide
  · obtain ⟨f, a, i, p⟩ := g
    obtain ⟨pm, sm, m4⟩ := src
    simp only [buildWarnings]
    cases pm <;> cases sm <;> cases m4 <;> split_ifs <;> simp_all [not_and_or] <;> tauto

/-- Claim C5, witness: the equivalence instantiated at a fully healthy
probe state, where the list is empty. -/
theorem C5_warnings_wit :
    buildWarnings ⟨some 1, none, none, some 2⟩ ⟨true, true, true⟩ = [] :=
  (C5_warnings ⟨some 1, none, none, some 2⟩ ⟨true, true, true⟩).2.2.mpr
    ⟨Or.inl (by simp), rfl, Or.inl rfl⟩

/-- Claim C6: in parsePmsetTherm, cpuLim defaults to 100 when its pattern is
absent but the text states that no CPU power status has been recorded,
gpuLim defaults to 100 whenever its pattern is absent, and the pressure
defaults to nominal when no pressure phrase matched but the text states that
no thermal warning level has been recorded. -/
theorem C6_pmset_defaults (out : String) :
    (matchNumKey out "CPU_Speed_Limit" = none →
     includesStr out "No CPU power status has been recorded" = true →
     (parsePmsetTherm out).cpuLim = some 100) ∧
    (matchNumKey out "GPU_Speed_Limit" = none →
     (parsePmsetTherm out).gpuLim = some 100) ∧
    (pressureWord out = none →
     includesStr out "No thermal warning level has been recorded" = true →
     (parsePmsetTherm out).pressure = ThermalPressure.nominal) := by
  refine ⟨?_, ?_, ?_⟩
  · intro h1 h2
    simp [parsePmsetTherm, h1, h2]
  · intro h1
    simp [parsePmsetTherm, h1]
  · intro h1 h2
    simp [parsePmsetTherm, h1, h2]

/-- A pmset/powermetrics output that contains no speed-limit tokens and no
pressure phrase but states that neither a CPU power status nor a thermal
warning level has been recorded. -/
def c6Input : String :=
  "No CPU power status has been recorded\nNo thermal warning level has been recorded"

/-- Claim C6, witness: all three defaults discharged on c6Input. -/
theorem C6_pmset_defaults_wit :
    (parsePmsetTherm c6Input).cpuLim = some 100 ∧
    (parsePmsetTherm c6Input).gpuLim = some 100 ∧
    (parsePmsetTherm c6Input).pressure = ThermalPressure.nominal :=
  ⟨(C6_pmset_defaults c6Input).1 (by decide) (by decide),
   (C6_pmset_defaults c6Input).2.1 (by decide),
   (C6_pmset_defaults c6Input).2.2 (by decide) (by decide)⟩

/-- Claim C7: the memory probe's ok flag is the conjunction of its two
sub-command statuses, and the thermal probe's ok flag is the disjunction of
its three sub-command statuses, for every combination of outcomes. -/
theorem C7_probe_ok_flags (mp swap pmset smc m4 : RunResult)
    (jsonParse : String → Option (List (String × ℚ))) :
    (getMemory mp swap).ok = (mp.ok && swap.ok) ∧
    (getThermals pmset smc m4 jsonParse).ok = (pmset.ok || smc.ok || m4.ok) :=
  ⟨rfl, rfl⟩

/-- A malformed input exercising the parsers away from every pattern. -/
def junkInput : String := "@@ 12..34 =="

/-- Claim C9: every parser of the embedding is a total function returning a
fully populated structure for every input; on the empty and on a malformed
input each unmatched field is the explicit null (or the unknown enum value,
or the documented default 100 for gpuLim), never an omission.  Totality of
the Lean functions over arbitrary strings gives the never-fails part. -/
theorem C9_parsers_total :
    (∀ out : String, ∃ s : GPUStats, parsePowermetricsGPU out = s) ∧
    (∀ out : String, ∃ m : Pressure, parseMemoryPressure out = m) ∧
    (∀ out : String, ∃ v : Option ℚ, parseSwapUsage out = v) ∧
    (∀ out : String, ∃ r : PmsetTherm, parsePmsetTherm out = r) ∧
    (∀ out : String, ∃ t : TempTriple, parsePowermetricsSMCTemps out = t) ∧
    (parsePowermetricsGPU "" = ⟨none, none, none, none⟩ ∧
     parseMemoryPressure "" = Pressure.unknown ∧
     parseSwapUsage "" = none ∧
     parsePmsetTherm "" = ⟨none, some 100, ThermalPressure.unknown⟩ ∧
     parsePowermetricsSMCTemps "" = ⟨none, none, none⟩) ∧
    (parsePowermetricsGPU junkInput = ⟨none, none, none, none⟩ ∧
     parseMemoryPressure junkInput = Pressure.unknown ∧
     parseSwapUsage junkInput = none ∧
     parsePmsetTherm junkInput = ⟨none, some 100, ThermalPressure.unknown⟩ ∧
     parsePowermetricsSMCTemps junkInput = ⟨none, none, none⟩) :=
  ⟨fun _ => ⟨_, rfl⟩, fun _ => ⟨_, rfl⟩, fun _ => ⟨_, rfl⟩,
   fun _ => ⟨_, rfl⟩, fun _ => ⟨_, rfl⟩,
   ⟨by decide, by decide, by decide, by decide, by decide⟩,
   ⟨by decide, by decide, by decide, by decide, by decide⟩⟩

/-- Claim C10: the gpu_speed_limit_pct field of every ThermalStats produced
by the thermal probe is populated, for every combination of sub-command
outcomes and every JSON-parse result: either the matched value or the
default 100. -/
theorem C10_gpu_limit_nonnull (pmset smc m4 : RunResult)
    (jsonParse : String → Option (List (String × ℚ))) :
    ∃ v : ℚ, (getThermals pmset smc m4 jsonParse).stats.gpu_speed_limit_pct = some v :=
  parsePmsetTherm_gpuLim_total
    (pmset.stdout ++ pmset.stderr ++ "\n" ++ (smc.stdout ++ smc.stderr))
